import Mathlib

/-!
Shallow embedding of the pareto service registry (`service/registry.go`)
and the tick-driven state machine (`box/meta/machine.go`).

Conventions:
* Go `uint64` values are modelled as `Nat` together with explicit
  `% 2^64` wherever the Go code performs `uint64` arithmetic
  (`u64sub`, `u64mul`).
* `box.TimeNowMs()` is modelled by an explicit `now : Nat` parameter
  threaded into every operation that reads the clock.
* The `sync.Map` entry store is modelled as an association list with
  unique keys (`assocFind` / `assocSet` / `assocDel`).
* Observable effects (the `notifyWatched` publication and the
  `unregister` store deletion) are collected into an ordered `Event`
  trace, in the order the Go code performs them.
-/

/-- Association-list lookup, first match wins (models `sync.Map.Load`). -/
def assocFind {β : Type} : List (String × β) → String → Option β
  | [], _ => none
  | (k', v) :: rest, k => if k' = k then some v else assocFind rest k

/-- Association-list store: replaces the first entry with the key, or
appends when the key is absent (models `sync.Map.Store`). -/
def assocSet {β : Type} : List (String × β) → String → β → List (String × β)
  | [], k, v => [(k, v)]
  | (k', v') :: rest, k, v =>
    if k' = k then (k, v) :: rest else (k', v') :: assocSet rest k v

/-- Association-list deletion of a key (models `sync.Map.Delete`; with the
unique-key invariant of a map this removes the single entry). -/
def assocDel {β : Type} : List (String × β) → String → List (String × β)
  | [], _ => []
  | (k', v') :: rest, k =>
    if k' = k then assocDel rest k else (k', v') :: assocDel rest k

/-- 2^64, the modulus of Go `uint64` arithmetic. -/
def U64 : Nat := 2 ^ 64

/-- Go `uint64` subtraction `a - b` (wraps modulo 2^64). -/
def u64sub (a b : Nat) : Nat := (a % U64 + (U64 - b % U64)) % U64

/-- Go `uint64` multiplication `a * b` (wraps modulo 2^64). -/
def u64mul (a b : Nat) : Nat := a * b % U64

namespace Service

/-- Liveness state enum of the `service` package (spec §3: at minimum
Starting, Online, Offline, Stopped). -/
inductive State where
  | Starting
  | Online
  | Offline
  | Stopped
deriving DecidableEq, Repr

/-- Wire-level service status DTO (`Status`): the fields read and written
by `registry.go` (`Name`, `Domain`, `State`, `Ready`, `CheckInterval`,
`AllowFailures`, `Time`). `checkInterval`/`allowFailures` model `uint32`
fields, `time` a millisecond timestamp. -/
structure Status where
  name : String
  domain : Int
  state : State
  ready : Bool
  checkInterval : Nat
  allowFailures : Nat
  time : Nat
deriving DecidableEq, Repr

/-- Internal registry entry (`type registry struct` in `registry.go`). -/
structure Registry where
  name : String
  domain : Int
  state : State
  ready : Bool
  onlineTime : Nat
  offlineTime : Nat
  updateTime : Nat
  interval : Nat
  threshold : Nat
  purgeDelay : Nat
deriving DecidableEq, Repr

/-- `registry.timeout`: `box.TimeNowMs() - r.updateTime > r.interval*r.threshold`
in `uint64` arithmetic. -/
def Registry.timeout (r : Registry) (now : Nat) : Bool :=
  decide (u64mul r.interval r.threshold < u64sub now r.updateTime)

/-- `registry.dead`: `box.TimeNowMs() - r.offlineTime > r.interval*r.purgeDelay`
in `uint64` arithmetic. -/
def Registry.dead (r : Registry) (now : Nat) : Bool :=
  decide (u64mul r.interval r.purgeDelay < u64sub now r.offlineTime)

/-- `registry.offline`: force the entry offline — sets `state = Offline`,
`ready = false`, stamps `updateTime` and copies it into `offlineTime`. -/
def Registry.offline (r : Registry) (now : Nat) : Registry :=
  { r with
    state := State.Offline
    ready := false
    updateTime := now
    offlineTime := now }

/-- `registry.update`: overwrites `interval`/`threshold` when the report
supplies non-zero values, overwrites `state`, stamps `updateTime`.
(The Go code does not touch `ready`, `onlineTime` or `offlineTime`.) -/
def Registry.update (r : Registry) (s : Status) (now : Nat) : Registry :=
  { r with
    interval := if s.checkInterval ≠ 0 then s.checkInterval else r.interval
    threshold := if s.allowFailures ≠ 0 then s.allowFailures else r.threshold
    state := s.state
    updateTime := now }

/-- `registry.toStatus`: snapshot of an entry as a `Status`; the fields the
Go composite literal omits (`CheckInterval`, `AllowFailures`) are
zero-initialised. -/
def Registry.toStatus (r : Registry) : Status :=
  { name := r.name
    domain := r.domain
    state := r.state
    ready := r.ready
    checkInterval := 0
    allowFailures := 0
    time := r.updateTime }

/-- Modelled from the spec: `box.SetIfEq(&target, eq, v)` is not under
`src/`; spec §3 describes a sticky fallback where fields "default to
process-wide defaults when a report supplies zero/absent values", so it
sets the target to `v` exactly when it currently equals `eq`. -/
def setIfEq (target eq v : Nat) : Nat :=
  if target = eq then v else target

/-- The entry store of `RegistryManager` (`services sync.Map`). -/
abbrev Store := List (String × Registry)

/-- Observable effects of registry operations, in execution order:
`notify old incoming` is the `notifyWatched(reg, status)` call (it
receives the pre-update snapshot and the incoming status, and publishes
on the notice endpoint); `unregister name` is the
`RegistryManager.unregister` store deletion. -/
inductive Event where
  | notify (old : Registry) (incoming : Status)
  | unregister (name : String)
deriving DecidableEq, Repr

/-- `RegistryManager.registry`: spawns an entry from a status report.
`interval` is seeded with `uint64(status.CheckInterval) * 1000`; zero
fields then fall back to the process-wide defaults via `box.SetIfEq`.
The default constants `StatusReportInterval`, `StatusLostThreshold` and
`ReviveWaitThreshold` are declared outside `src/`, so they are taken as
parameters `dInterval`, `dThreshold`, `dPurge`. -/
def RegistryManager.registry (dInterval dThreshold dPurge : Nat)
    (status : Status) (now : Nat) : Registry :=
  let r : Registry :=
    { name := status.name
      domain := status.domain
      state := status.state
      ready := status.ready
      onlineTime := now
      offlineTime := 0
      updateTime := now
      interval := u64mul status.checkInterval 1000
      threshold := status.allowFailures
      purgeDelay := 0 }
  { r with
    interval := setIfEq r.interval 0 (u64mul dInterval 1000)
    threshold := setIfEq r.threshold 0 dThreshold
    purgeDelay := setIfEq r.purgeDelay 0 dPurge }

/-- `RegistryManager.update`: emits the transition notification when
`state` or `ready` differs (computed on the pre-update entry), then
overwrites the entry in place (`reg.update(status)` mutates the pointer
stored under `status.Name`, modelled as `assocSet` at that key), then
deletes the entry when the resulting state is `Stopped`
(`s.unregister(reg.name)`). -/
def RegistryManager.update (store : Store) (reg : Registry) (st : Status)
    (now : Nat) : Store × List Event :=
  let evs := if reg.state ≠ st.state ∨ reg.ready ≠ st.ready
             then [Event.notify reg st] else []
  let reg' := Registry.update reg st now
  let store' := assocSet store st.name reg'
  if reg'.state = State.Stopped then
    (assocDel store' reg.name, evs ++ [Event.unregister reg.name])
  else
    (store', evs)

/-- `RegistryManager.handleStatus` after JSON decoding succeeded (a
malformed payload is logged and dropped before reaching this logic):
update the tracked entry, or register an unseen name. Registration emits
no notification. -/
def RegistryManager.handleStatus (dInterval dThreshold dPurge : Nat)
    (now : Nat) (store : Store) (st : Status) : Store × List Event :=
  match assocFind store st.name with
  | some reg => RegistryManager.update store reg st now
  | none =>
    (assocSet store st.name
      (RegistryManager.registry dInterval dThreshold dPurge st now), [])

/-- `RegistryManager.handleQueryStatus` after parameter decoding: return a
point-in-time snapshot of the entry, or the structured error
`service name does not exist`. The handler only reads the store. -/
def RegistryManager.handleQueryStatus (store : Store) (name : String) :
    Except String Status :=
  match assocFind store name with
  | none => Except.error "service name does not exist"
  | some reg =>
    Except.ok
      { name := reg.name
        domain := reg.domain
        state := reg.state
        ready := reg.ready
        checkInterval := 0
        allowFailures := 0
        time := reg.updateTime }

/-- Body of the `services.Range` closure in `RegistryManager.checkTimeout`
for one entry: Offline entries are purged when `dead` (and otherwise left
untouched, awaiting revival); other entries are forced offline when
`timeout`, with a notification comparing the pre-transition snapshot
against the new status. `none` means the entry is deleted. -/
def RegistryManager.checkTimeoutEntry (now : Nat) (r : Registry) :
    Option Registry × List Event :=
  if r.state = State.Offline then
    if r.dead now then (none, []) else (some r, [])
  else
    if r.timeout now then
      let r' := r.offline now
      (some r', [Event.notify r r'.toStatus])
    else
      (some r, [])

/-- `RegistryManager.checkTimeout`: the sweep over the whole store (the
timer re-arm is a scheduling detail outside the model). -/
def RegistryManager.checkTimeout (now : Nat) : Store → Store × List Event
  | [] => ([], [])
  | (k, r) :: rest =>
    let res := RegistryManager.checkTimeout now rest
    match RegistryManager.checkTimeoutEntry now r with
    | (none, es) => (res.1, es ++ res.2)
    | (some r', es) => ((k, r') :: res.1, es ++ res.2)

end Service

namespace Meta

/-- Go runtime panics that the state-machine code can raise:
`nilInterfaceConversion` is the `sm.current.Load().(string)` type
assertion on a never-stored `atomic.Value`; `nilStateTrigger` is calling
`trigger` on the nil `*State` returned by a failed map lookup;
`closeOfClosedChannel` is `close(s.machine.stopped)` on an
already-closed channel. -/
inductive Panic where
  | nilInterfaceConversion
  | nilStateTrigger
  | closeOfClosedChannel
deriving DecidableEq, Repr

/-- `meta.State`: one state of the machine. The Go `Action func(args)` and
`Args` fields are opaque user code; the model records only whether an
action is bound (`hasAction`); the action's own side effects are outside
the model. `machine` (the owner back-reference) is passed explicitly to
`trigger`. -/
structure State where
  Name : String
  Ticks : Nat
  hasAction : Bool
  tickCnt : Nat
deriving DecidableEq, Repr

/-- `meta.StateMachine`. `current` models the `atomic.Value` slot: `none`
means it has never been stored (so `Load()` yields a nil interface);
`stoppedClosed` records whether the one-shot `stopped` channel has been
closed. The ticker, precision and `quit` channel are scheduling details
outside the model; `trace` only gates logging. -/
structure StateMachine where
  name : String
  states : List (String × State)
  starting : String
  stopping : String
  saved : String
  current : Option String
  stoppedClosed : Bool
deriving DecidableEq, Repr

/-- `NewStateMachine`: fresh machine with no states and an unset
`current` slot. -/
def NewStateMachine (name : String) : StateMachine :=
  { name := name
    states := []
    starting := ""
    stopping := ""
    saved := ""
    current := none
    stoppedClosed := false }

/-- `StateMachine.GetState`: `sm.current.Load().(string)` — panics with a
nil interface conversion when nothing was ever stored. -/
def StateMachine.GetState (sm : StateMachine) : Except Panic String :=
  match sm.current with
  | none => Except.error Panic.nilInterfaceConversion
  | some s => Except.ok s

/-- `StateMachine.MoveToState`: no-op success when already current; fails
when the name is unregistered; otherwise publishes the new current
state. Reads the current state first, so it inherits `GetState`'s
panic on an uninitialised machine. -/
def StateMachine.MoveToState (sm : StateMachine) (s : String) :
    Except Panic (StateMachine × Bool) := do
  let cur ← sm.GetState
  if cur = s then
    Except.ok (sm, true)
  else
    match assocFind sm.states s with
    | none => Except.ok (sm, false)
    | some _ => Except.ok ({ sm with current := some s }, true)

/-- `StateMachine.RegisterState`: adds/replaces a state by name, resetting
its tick counter; rejects an unnamed descriptor. (The Go nil-pointer
check has no counterpart: descriptors are values here.) -/
def StateMachine.RegisterState (sm : StateMachine) (s : State) :
    StateMachine × Bool :=
  if s.Name = "" then (sm, false)
  else
    ({ sm with states := assocSet sm.states s.Name { s with tickCnt := 0 } },
     true)

/-- `StateMachine.SetStartingState`: validates the name is registered. -/
def StateMachine.SetStartingState (sm : StateMachine) (state : String) :
    StateMachine × Bool :=
  match assocFind sm.states state with
  | none => (sm, false)
  | some _ => ({ sm with starting := state }, true)

/-- `StateMachine.SetStoppingState`: validates the name is registered. -/
def StateMachine.SetStoppingState (sm : StateMachine) (state : String) :
    StateMachine × Bool :=
  match assocFind sm.states state with
  | none => (sm, false)
  | some _ => ({ sm with stopping := state }, true)

/-- `StateMachine.Startup`: fails (returns `false`) without states or a
starting state; otherwise reads `GetState()` (which panics on a fresh
machine whose `current` slot was never stored) and moves to the starting
state when the current one is empty. The spawned trigger loop is
modelled by explicit `trigger` calls. -/
def StateMachine.Startup (sm : StateMachine) :
    Except Panic (StateMachine × Bool) :=
  if sm.states.length = 0 then Except.ok (sm, false)
  else if sm.starting = "" then Except.ok (sm, false)
  else do
    let cur ← sm.GetState
    if cur = "" then
      let res ← sm.MoveToState sm.starting
      Except.ok (res.1, true)
    else
      Except.ok (sm, true)

/-- `meta.State.trigger` with the owner machine `sm` explicit: increments
the tick counter (`tickCnt` is a Go `uint`, so `s.tickCnt++` wraps
modulo 2^64; in place, i.e. under the state's key in the map), then
fires the bound action when `Ticks == 0` or the counter is a multiple of
`Ticks`; after the action, when a stopping state is designated and this
is it, closes the one-shot `stopped` channel — a second close panics.
The returned `Bool` records whether the action fired. -/
def State.trigger (sm : StateMachine) (s : State) :
    Except Panic (StateMachine × Bool) :=
  let s' := { s with tickCnt := (s.tickCnt + 1) % U64 }
  let sm1 := { sm with states := assocSet sm.states s.Name s' }
  if s'.Ticks = 0 ∨ s'.tickCnt % s'.Ticks = 0 then
    if s.hasAction then
      if sm1.stopping ≠ "" ∧ s.Name = sm1.stopping then
        if sm1.stoppedClosed then Except.error Panic.closeOfClosedChannel
        else Except.ok ({ sm1 with stoppedClosed := true }, true)
      else Except.ok (sm1, true)
    else Except.ok (sm1, false)
  else Except.ok (sm1, false)

/-- `StateMachine.trigger` (one tick of the loop): looks up the current
state and triggers it; a missing entry yields a nil `*State` whose
method call panics. -/
def StateMachine.trigger (sm : StateMachine) :
    Except Panic (StateMachine × Bool) := do
  let cur ← sm.GetState
  match assocFind sm.states cur with
  | none => Except.error Panic.nilStateTrigger
  | some s => State.trigger sm s

/-- `StateMachine.SaveState`. -/
def StateMachine.SaveState (sm : StateMachine) : Except Panic StateMachine := do
  let cur ← sm.GetState
  Except.ok { sm with saved := cur }

end Meta

/-! ### Helper lemmas on association lists and `uint64` arithmetic -/

theorem assocFind_set_self {β : Type} (l : List (String × β)) (k : String)
    (v : β) : assocFind (assocSet l k v) k = some v := by
  induction l with
  | nil => simp [assocSet, assocFind]
  | cons hd tl ih =>
    obtain ⟨k', v'⟩ := hd
    by_cases hk : k' = k
    · simp [assocSet, assocFind, hk]
    · simp [assocSet, assocFind, hk, ih]

theorem assocFind_set_ne {β : Type} (l : List (String × β)) (k m : String)
    (v : β) (h : k ≠ m) : assocFind (assocSet l k v) m = assocFind l m := by
  induction l with
  | nil => simp [assocSet, assocFind, h]
  | cons hd tl ih =>
    obtain ⟨k', v'⟩ := hd
    by_cases hk : k' = k
    · subst hk
      simp [assocSet, assocFind, h]
    · simp [assocSet, assocFind, hk, ih]

theorem assocFind_del_self {β : Type} (l : List (String × β)) (k : String) :
    assocFind (assocDel l k) k = none := by
  induction l with
  | nil => simp [assocDel, assocFind]
  | cons hd tl ih =>
    obtain ⟨k', v'⟩ := hd
    by_cases hk : k' = k
    · simp [assocDel, hk, ih]
    · simp [assocDel, assocFind, hk, ih]

theorem assocFind_eq_none_of_not_mem {β : Type} (l : List (String × β))
    (k : String) (h : k ∉ l.map Prod.fst) : assocFind l k = none := by
  induction l with
  | nil => simp [assocFind]
  | cons hd tl ih =>
    obtain ⟨k', v'⟩ := hd
    simp only [List.map_cons, List.mem_cons] at h
    push_neg at h
    have hk : ¬ k' = k := fun hq => h.1 hq.symm
    simp [assocFind, hk, ih h.2]

theorem u64sub_eq (a b : Nat) (hba : b ≤ a) (ha : a < U64) :
    u64sub a b = a - b := by
  have hb : b < U64 := lt_of_le_of_lt hba ha
  unfold u64sub
  rw [Nat.mod_eq_of_lt ha, Nat.mod_eq_of_lt hb]
  have h1 : a + (U64 - b) = a - b + U64 := by omega
  rw [h1, Nat.add_mod_right, Nat.mod_eq_of_lt (by omega)]

theorem u64mul_eq (a b : Nat) (h : a * b < U64) : u64mul a b = a * b :=
  Nat.mod_eq_of_lt h

namespace Service

theorem Registry.timeout_iff (r : Registry) (now : Nat)
    (h1 : r.updateTime ≤ now) (h2 : now < U64)
    (h3 : r.interval * r.threshold < U64) :
    r.timeout now = true ↔ r.interval * r.threshold < now - r.updateTime := by
  unfold Registry.timeout
  rw [u64sub_eq now r.updateTime h1 h2, u64mul_eq r.interval r.threshold h3]
  simp

theorem Registry.dead_iff (r : Registry) (now : Nat)
    (h1 : r.offlineTime ≤ now) (h2 : now < U64)
    (h3 : r.interval * r.purgeDelay < U64) :
    r.dead now = true ↔ r.interval * r.purgeDelay < now - r.offlineTime := by
  unfold Registry.dead
  rw [u64sub_eq now r.offlineTime h1 h2, u64mul_eq r.interval r.purgeDelay h3]
  simp

/-- The sweep introduces no new keys: a name absent from the store is
still absent afterwards. -/
theorem checkTimeout_find_none (now : Nat) (store : Store) (name : String)
    (h : assocFind store name = none) :
    assocFind (RegistryManager.checkTimeout now store).1 name = none := by
  induction store with
  | nil => simpa [RegistryManager.checkTimeout] using h
  | cons hd tl ih =>
    obtain ⟨k, r⟩ := hd
    by_cases hk : k = name
    · simp [assocFind, hk] at h
    · simp only [assocFind, if_neg hk] at h
      unfold RegistryManager.checkTimeout
      rcases hE : RegistryManager.checkTimeoutEntry now r with ⟨o, es⟩
      cases o with
      | none => simpa [hE] using ih h
      | some r' => simpa [hE, assocFind, hk] using ih h

/-- Per-entry characterisation of the sweep at the store level: with
unique keys, the entry stored under a name after the sweep is exactly
the per-entry result for the value stored before. -/
theorem checkTimeout_find_some (now : Nat) (store : Store) (name : String)
    (reg : Registry) (hnd : (store.map Prod.fst).Nodup)
    (h : assocFind store name = some reg) :
    assocFind (RegistryManager.checkTimeout now store).1 name =
      (RegistryManager.checkTimeoutEntry now reg).1 := by
  induction store with
  | nil => simp [assocFind] at h
  | cons hd tl ih =>
    obtain ⟨k, r⟩ := hd
    simp only [List.map_cons, List.nodup_cons] at hnd
    by_cases hk : k = name
    · subst hk
      have hreg : r = reg := by simpa [assocFind] using h
      subst hreg
      have htl : assocFind tl k = none :=
        assocFind_eq_none_of_not_mem tl k hnd.1
      unfold RegistryManager.checkTimeout
      rcases hE : RegistryManager.checkTimeoutEntry now r with ⟨o, es⟩
      cases o with
      | none => simpa [hE] using checkTimeout_find_none now tl k htl
      | some r' => simp [hE, assocFind]
    · simp only [assocFind, if_neg hk] at h
      unfold RegistryManager.checkTimeout
      rcases hE : RegistryManager.checkTimeoutEntry now r with ⟨o, es⟩
      cases o with
      | none => simpa [hE] using ih hnd.2 h
      | some r' => simpa [hE, assocFind, hk] using ih hnd.2 h

end Service

/-! ### Claim theorems -/

/-- Claim C8: `queryStatus` returns a point-in-time snapshot (name, domain,
state, ready, updateTime) of the entry when the name is tracked, and fails
with the structured error `service name does not exist` exactly when the
name is absent. The handler only reads the store (by construction the
embedding returns no modified store, mirroring the read-only Go handler). -/
theorem c8_query_status (store : Service.Store) (name : String) :
    (∀ reg : Service.Registry, assocFind store name = some reg →
       Service.RegistryManager.handleQueryStatus store name =
         Except.ok
           { name := reg.name, domain := reg.domain, state := reg.state,
             ready := reg.ready, checkInterval := 0, allowFailures := 0,
             time := reg.updateTime }) ∧
    (assocFind store name = none ↔
       Service.RegistryManager.handleQueryStatus store name =
         Except.error "service name does not exist") := by
  constructor
  · intro reg h
    simp [Service.RegistryManager.handleQueryStatus, h]
  · constructor
    · intro h
      simp [Service.RegistryManager.handleQueryStatus, h]
    · intro h
      rcases hf : assocFind store name with _ | reg
      · rfl
      · simp [Service.RegistryManager.handleQueryStatus, hf] at h

/-- Witness for C8: a present name yields its snapshot, an absent name the
not-found error. -/
theorem c8_query_status_witness :
    Service.RegistryManager.handleQueryStatus
        [("a", { name := "a", domain := 2, state := Service.State.Online,
                 ready := true, onlineTime := 1, offlineTime := 0,
                 updateTime := 9, interval := 5000, threshold := 3,
                 purgeDelay := 3 })] "a" =
      Except.ok
        { name := "a", domain := 2, state := Service.State.Online,
          ready := true, checkInterval := 0, allowFailures := 0, time := 9 } ∧
    Service.RegistryManager.handleQueryStatus [] "b" =
      Except.error "service name does not exist" :=
  ⟨(c8_query_status
     [("a", { name := "a", domain := 2, state := Service.State.Online,
              ready := true, onlineTime := 1, offlineTime := 0,
              updateTime := 9, interval := 5000, threshold := 3,
              purgeDelay := 3 })] "a").1 _ rfl,
   (c8_query_status [] "b").2.mp rfl⟩

/-- Claim C9: with a non-zero `checkInterval` `c`, the registration path
stores `interval = c * 1000` (seconds → milliseconds) while the update path
stores `interval = c` unconverted, so the registered interval is 1000 times
the updated one for the same report. -/
theorem c9_interval_mismatch (dInterval dThreshold dPurge : Nat)
    (st : Service.Status) (now : Nat) (reg : Service.Registry)
    (h0 : st.checkInterval ≠ 0) (h32 : st.checkInterval < 2 ^ 32) :
    (Service.RegistryManager.registry dInterval dThreshold dPurge st now).interval =
      st.checkInterval * 1000 ∧
    (Service.Registry.update reg st now).interval = st.checkInterval ∧
    (Service.RegistryManager.registry dInterval dThreshold dPurge st now).interval =
      1000 * (Service.Registry.update reg st now).interval := by
  have hpow : (2 : Nat) ^ 32 = 4294967296 := by norm_num
  have h64 : U64 = 18446744073709551616 := by norm_num [U64]
  have hmul : st.checkInterval * 1000 < U64 := by
    rw [hpow] at h32
    omega
  have hval : u64mul st.checkInterval 1000 = st.checkInterval * 1000 :=
    u64mul_eq _ _ hmul
  have hne : st.checkInterval * 1000 ≠ 0 := by
    exact Nat.mul_ne_zero h0 (by norm_num)
  refine ⟨?_, ?_, ?_⟩
  · simp [Service.RegistryManager.registry, Service.setIfEq, hval, hne]
  · simp [Service.Registry.update, h0]
  · rw [Nat.mul_comm 1000]
    simp [Service.RegistryManager.registry, Service.Registry.update, Service.setIfEq,
      hval, hne, h0]

/-- Witness for C9 at `checkInterval = 7`: registration stores 7000,
update stores 7. -/
theorem c9_interval_mismatch_witness :
    (Service.RegistryManager.registry 5 3 3
        { name := "a", domain := 0, state := Service.State.Online,
          ready := true, checkInterval := 7, allowFailures := 2, time := 0 }
        42).interval =
      ({ name := "a", domain := 0, state := Service.State.Online,
         ready := true, checkInterval := 7, allowFailures := 2,
         time := 0 } : Service.Status).checkInterval * 1000 ∧
    (Service.Registry.update
        { name := "a", domain := 0, state := Service.State.Online,
          ready := true, onlineTime := 0, offlineTime := 0, updateTime := 0,
          interval := 5000, threshold := 3, purgeDelay := 3 }
        { name := "a", domain := 0, state := Service.State.Online,
          ready := true, checkInterval := 7, allowFailures := 2, time := 0 }
        42).interval =
      ({ name := "a", domain := 0, state := Service.State.Online,
         ready := true, checkInterval := 7, allowFailures := 2,
         time := 0 } : Service.Status).checkInterval ∧
    (Service.RegistryManager.registry 5 3 3
        { name := "a", domain := 0, state := Service.State.Online,
          ready := true, checkInterval := 7, allowFailures := 2, time := 0 }
        42).interval =
      1000 *
        (Service.Registry.update
            { name := "a", domain := 0, state := Service.State.Online,
              ready := true, onlineTime := 0, offlineTime := 0,
              updateTime := 0, interval := 5000, threshold := 3,
              purgeDelay := 3 }
            { name := "a", domain := 0, state := Service.State.Online,
              ready := true, checkInterval := 7, allowFailures := 2,
              time := 0 }
            42).interval :=
  c9_interval_mismatch 5 3 3
    { name := "a", domain := 0, state := Service.State.Online,
      ready := true, checkInterval := 7, allowFailures := 2, time := 0 }
    42
    { name := "a", domain := 0, state := Service.State.Online,
      ready := true, onlineTime := 0, offlineTime := 0, updateTime := 0,
      interval := 5000, threshold := 3, purgeDelay := 3 }
    (by decide) (by decide)

/-- Claim C10: for an unseen name, `handleStatus` registers a new entry
regardless of the reported state, emits nothing, and retains the entry —
in particular a first report carrying `state = Stopped` creates and keeps
an entry (the registration path never deletes). -/
theorem c10_register_unseen (dInterval dThreshold dPurge now : Nat)
    (store : Service.Store) (st : Service.Status)
    (h : assocFind store st.name = none) :
    Service.RegistryManager.handleStatus dInterval dThreshold dPurge now store st =
      (assocSet store st.name
        (Service.RegistryManager.registry dInterval dThreshold dPurge st now),
       []) ∧
    assocFind
        (Service.RegistryManager.handleStatus dInterval dThreshold dPurge now
          store st).1 st.name =
      some (Service.RegistryManager.registry dInterval dThreshold dPurge st now) := by
  constructor
  · simp [Service.RegistryManager.handleStatus, h]
  · simp [Service.RegistryManager.handleStatus, h, assocFind_set_self]

/-- Witness for C10: a first report carrying `state = Stopped` creates and
retains an entry. -/
theorem c10_register_unseen_witness :
    Service.RegistryManager.handleStatus 5 3 3 42 []
        { name := "a", domain := 0, state := Service.State.Stopped,
          ready := false, checkInterval := 0, allowFailures := 0, time := 0 } =
      (assocSet []
        ({ name := "a", domain := 0, state := Service.State.Stopped,
           ready := false, checkInterval := 0, allowFailures := 0,
           time := 0 } : Service.Status).name
        (Service.RegistryManager.registry 5 3 3
          { name := "a", domain := 0, state := Service.State.Stopped,
            ready := false, checkInterval := 0, allowFailures := 0,
            time := 0 } 42),
       []) ∧
    assocFind
        (Service.RegistryManager.handleStatus 5 3 3 42 []
          { name := "a", domain := 0, state := Service.State.Stopped,
            ready := false, checkInterval := 0, allowFailures := 0,
            time := 0 }).1
        ({ name := "a", domain := 0, state := Service.State.Stopped,
           ready := false, checkInterval := 0, allowFailures := 0,
           time := 0 } : Service.Status).name =
      some (Service.RegistryManager.registry 5 3 3
        { name := "a", domain := 0, state := Service.State.Stopped,
          ready := false, checkInterval := 0, allowFailures := 0,
          time := 0 } 42) :=
  c10_register_unseen 5 3 3 42 []
    { name := "a", domain := 0, state := Service.State.Stopped,
      ready := false, checkInterval := 0, allowFailures := 0, time := 0 }
    rfl

/-- Counterexample to claim C1 as stated: `registry.update` never writes
`ready`, so after an update of a tracked entry the stored `ready` can
differ from the report's `ready`. Concretely, for a tracked entry with
`ready = true` and a report with `ready = false` (same state), the
stored entry after `handleStatus` still has `ready = true ≠ false`
— the claim's "after the update the stored entry's state and ready both
equal the report's values" is false. -/
theorem c1_counterexample :
    assocFind
        (Service.RegistryManager.handleStatus 5 3 3 100
          [("a", { name := "a", domain := 0, state := Service.State.Online,
                   ready := true, onlineTime := 0, offlineTime := 0,
                   updateTime := 0, interval := 5000, threshold := 3,
                   purgeDelay := 3 })]
          { name := "a", domain := 0, state := Service.State.Online,
            ready := false, checkInterval := 0, allowFailures := 0,
            time := 0 }).1 "a" =
      some { name := "a", domain := 0, state := Service.State.Online,
             ready := true, onlineTime := 0, offlineTime := 0,
             updateTime := 100, interval := 5000, threshold := 3,
             purgeDelay := 3 } ∧
    (true : Bool) ≠ false := by
  constructor
  · rfl
  · decide

/-- Claim C1 (amended): for a tracked name whose report does not lead to
`Stopped`, `handleStatus` emits a transition notification carrying the
pre-update snapshot and the incoming report exactly when `state` or
`ready` differs; after the update the stored entry's `state` equals the
report's value while `ready` keeps its previously stored value,
`interval`/`threshold` are overwritten exactly when the report supplies
non-zero values, and `updateTime` is stamped. -/
theorem c1_update_behaviour (dInterval dThreshold dPurge now : Nat)
    (store : Service.Store) (st : Service.Status) (reg : Service.Registry)
    (h : assocFind store st.name = some reg)
    (hns : st.state ≠ Service.State.Stopped) :
    Service.RegistryManager.handleStatus dInterval dThreshold dPurge now store st =
      (assocSet store st.name (Service.Registry.update reg st now),
       if reg.state ≠ st.state ∨ reg.ready ≠ st.ready
       then [Service.Event.notify reg st] else []) ∧
    assocFind
        (Service.RegistryManager.handleStatus dInterval dThreshold dPurge now
          store st).1 st.name =
      some (Service.Registry.update reg st now) ∧
    (Service.Registry.update reg st now).state = st.state ∧
    (Service.Registry.update reg st now).ready = reg.ready ∧
    (Service.Registry.update reg st now).updateTime = now ∧
    (st.checkInterval ≠ 0 →
      (Service.Registry.update reg st now).interval = st.checkInterval) ∧
    (st.checkInterval = 0 →
      (Service.Registry.update reg st now).interval = reg.interval) ∧
    (st.allowFailures ≠ 0 →
      (Service.Registry.update reg st now).threshold = st.allowFailures) ∧
    (st.allowFailures = 0 →
      (Service.Registry.update reg st now).threshold = reg.threshold) := by
  have hstate : (Service.Registry.update reg st now).state = st.state := rfl
  have hmain :
      Service.RegistryManager.handleStatus dInterval dThreshold dPurge now store st =
        (assocSet store st.name (Service.Registry.update reg st now),
         if reg.state ≠ st.state ∨ reg.ready ≠ st.ready
         then [Service.Event.notify reg st] else []) := by
    simp only [Service.RegistryManager.handleStatus, h]
    unfold Service.RegistryManager.update
    rw [if_neg (by rw [hstate]; exact hns)]
  refine ⟨hmain, ?_, rfl, rfl, rfl, ?_, ?_, ?_, ?_⟩
  · rw [hmain]
    exact assocFind_set_self store st.name _
  · intro h0; simp [Service.Registry.update, h0]
  · intro h0; simp [Service.Registry.update, h0]
  · intro h0; simp [Service.Registry.update, h0]
  · intro h0; simp [Service.Registry.update, h0]

/-- Witness for C1 (amended): a report flipping `ready` on a tracked
Online entry emits exactly one notification and stamps the entry. -/
theorem c1_update_behaviour_witness :
    Service.RegistryManager.handleStatus 5 3 3 100
        [("a", { name := "a", domain := 0, state := Service.State.Online,
                 ready := true, onlineTime := 0, offlineTime := 0,
                 updateTime := 0, interval := 5000, threshold := 3,
                 purgeDelay := 3 })]
        { name := "a", domain := 0, state := Service.State.Online,
          ready := false, checkInterval := 0, allowFailures := 0, time := 0 } =
      (assocSet
        [("a", { name := "a", domain := 0, state := Service.State.Online,
                 ready := true, onlineTime := 0, offlineTime := 0,
                 updateTime := 0, interval := 5000, threshold := 3,
                 purgeDelay := 3 })]
        ({ name := "a", domain := 0, state := Service.State.Online,
           ready := false, checkInterval := 0, allowFailures := 0,
           time := 0 } : Service.Status).name
        (Service.Registry.update
          { name := "a", domain := 0, state := Service.State.Online,
            ready := true, onlineTime := 0, offlineTime := 0,
            updateTime := 0, interval := 5000, threshold := 3,
            purgeDelay := 3 }
          { name := "a", domain := 0, state := Service.State.Online,
            ready := false, checkInterval := 0, allowFailures := 0,
            time := 0 } 100),
       if ({ name := "a", domain := 0, state := Service.State.Online,
             ready := true, onlineTime := 0, offlineTime := 0,
             updateTime := 0, interval := 5000, threshold := 3,
             purgeDelay := 3 } : Service.Registry).state ≠
            ({ name := "a", domain := 0, state := Service.State.Online,
               ready := false, checkInterval := 0, allowFailures := 0,
               time := 0 } : Service.Status).state ∨
          ({ name := "a", domain := 0, state := Service.State.Online,
             ready := true, onlineTime := 0, offlineTime := 0,
             updateTime := 0, interval := 5000, threshold := 3,
             purgeDelay := 3 } : Service.Registry).ready ≠
            ({ name := "a", domain := 0, state := Service.State.Online,
               ready := false, checkInterval := 0, allowFailures := 0,
               time := 0 } : Service.Status).ready
       then [Service.Event.notify
               { name := "a", domain := 0, state := Service.State.Online,
                 ready := true, onlineTime := 0, offlineTime := 0,
                 updateTime := 0, interval := 5000, threshold := 3,
                 purgeDelay := 3 }
               { name := "a", domain := 0, state := Service.State.Online,
                 ready := false, checkInterval := 0, allowFailures := 0,
                 time := 0 }]
       else []) ∧
    assocFind
        (Service.RegistryManager.handleStatus 5 3 3 100
          [("a", { name := "a", domain := 0, state := Service.State.Online,
                   ready := true, onlineTime := 0, offlineTime := 0,
                   updateTime := 0, interval := 5000, threshold := 3,
                   purgeDelay := 3 })]
          { name := "a", domain := 0, state := Service.State.Online,
            ready := false, checkInterval := 0, allowFailures := 0,
            time := 0 }).1
        ({ name := "a", domain := 0, state := Service.State.Online,
           ready := false, checkInterval := 0, allowFailures := 0,
           time := 0 } : Service.Status).name =
      some (Service.Registry.update
        { name := "a", domain := 0, state := Service.State.Online,
          ready := true, onlineTime := 0, offlineTime := 0, updateTime := 0,
          interval := 5000, threshold := 3, purgeDelay := 3 }
        { name := "a", domain := 0, state := Service.State.Online,
          ready := false, checkInterval := 0, allowFailures := 0,
          time := 0 } 100) ∧
    (Service.Registry.update
        { name := "a", domain := 0, state := Service.State.Online,
          ready := true, onlineTime := 0, offlineTime := 0, updateTime := 0,
          interval := 5000, threshold := 3, purgeDelay := 3 }
        { name := "a", domain := 0, state := Service.State.Online,
          ready := false, checkInterval := 0, allowFailures := 0,
          time := 0 } 100).state =
      ({ name := "a", domain := 0, state := Service.State.Online,
         ready := false, checkInterval := 0, allowFailures := 0,
         time := 0 } : Service.Status).state ∧
    (Service.Registry.update
        { name := "a", domain := 0, state := Service.State.Online,
          ready := true, onlineTime := 0, offlineTime := 0, updateTime := 0,
          interval := 5000, threshold := 3, purgeDelay := 3 }
        { name := "a", domain := 0, state := Service.State.Online,
          ready := false, checkInterval := 0, allowFailures := 0,
          time := 0 } 100).ready =
      ({ name := "a", domain := 0, state := Service.State.Online,
         ready := true, onlineTime := 0, offlineTime := 0, updateTime := 0,
         interval := 5000, threshold := 3,
         purgeDelay := 3 } : Service.Registry).ready ∧
    (Service.Registry.update
        { name := "a", domain := 0, state := Service.State.Online,
          ready := true, onlineTime := 0, offlineTime := 0, updateTime := 0,
          interval := 5000, threshold := 3, purgeDelay := 3 }
        { name := "a", domain := 0, state := Service.State.Online,
          ready := false, checkInterval := 0, allowFailures := 0,
          time := 0 } 100).updateTime = 100 ∧
    (({ name := "a", domain := 0, state := Service.State.Online,
        ready := false, checkInterval := 0, allowFailures := 0,
        time := 0 } : Service.Status).checkInterval ≠ 0 →
      (Service.Registry.update
          { name := "a", domain := 0, state := Service.State.Online,
            ready := true, onlineTime := 0, offlineTime := 0,
            updateTime := 0, interval := 5000, threshold := 3,
            purgeDelay := 3 }
          { name := "a", domain := 0, state := Service.State.Online,
            ready := false, checkInterval := 0, allowFailures := 0,
            time := 0 } 100).interval =
        ({ name := "a", domain := 0, state := Service.State.Online,
           ready := false, checkInterval := 0, allowFailures := 0,
           time := 0 } : Service.Status).checkInterval) ∧
    (({ name := "a", domain := 0, state := Service.State.Online,
        ready := false, checkInterval := 0, allowFailures := 0,
        time := 0 } : Service.Status).checkInterval = 0 →
      (Service.Registry.update
          { name := "a", domain := 0, state := Service.State.Online,
            ready := true, onlineTime := 0, offlineTime := 0,
            updateTime := 0, interval := 5000, threshold := 3,
            purgeDelay := 3 }
          { name := "a", domain := 0, state := Service.State.Online,
            ready := false, checkInterval := 0, allowFailures := 0,
            time := 0 } 100).interval =
        ({ name := "a", domain := 0, state := Service.State.Online,
           ready := true, onlineTime := 0, offlineTime := 0,
           updateTime := 0, interval := 5000, threshold := 3,
           purgeDelay := 3 } : Service.Registry).interval) ∧
    (({ name := "a", domain := 0, state := Service.State.Online,
        ready := false, checkInterval := 0, allowFailures := 0,
        time := 0 } : Service.Status).allowFailures ≠ 0 →
      (Service.Registry.update
          { name := "a", domain := 0, state := Service.State.Online,
            ready := true, onlineTime := 0, offlineTime := 0,
            updateTime := 0, interval := 5000, threshold := 3,
            purgeDelay := 3 }
          { name := "a", domain := 0, state := Service.State.Online,
            ready := false, checkInterval := 0, allowFailures := 0,
            time := 0 } 100).threshold =
        ({ name := "a", domain := 0, state := Service.State.Online,
           ready := false, checkInterval := 0, allowFailures := 0,
           time := 0 } : Service.Status).allowFailures) ∧
    (({ name := "a", domain := 0, state := Service.State.Online,
        ready := false, checkInterval := 0, allowFailures := 0,
        time := 0 } : Service.Status).allowFailures = 0 →
      (Service.Registry.update
          { name := "a", domain := 0, state := Service.State.Online,
            ready := true, onlineTime := 0, offlineTime := 0,
            updateTime := 0, interval := 5000, threshold := 3,
            purgeDelay := 3 }
          { name := "a", domain := 0, state := Service.State.Online,
            ready := false, checkInterval := 0, allowFailures := 0,
            time := 0 } 100).threshold =
        ({ name := "a", domain := 0, state := Service.State.Online,
           ready := true, onlineTime := 0, offlineTime := 0,
           updateTime := 0, interval := 5000, threshold := 3,
           purgeDelay := 3 } : Service.Registry).threshold) :=
  c1_update_behaviour 5 3 3 100
    [("a", { name := "a", domain := 0, state := Service.State.Online,
             ready := true, onlineTime := 0, offlineTime := 0,
             updateTime := 0, interval := 5000, threshold := 3,
             purgeDelay := 3 })]
    { name := "a", domain := 0, state := Service.State.Online,
      ready := false, checkInterval := 0, allowFailures := 0, time := 0 }
    { name := "a", domain := 0, state := Service.State.Online,
      ready := true, onlineTime := 0, offlineTime := 0, updateTime := 0,
      interval := 5000, threshold := 3, purgeDelay := 3 }
    rfl (by decide)

/-- Counterexample to claim C2 as stated: an explicit report carrying
`state = Offline` transitions a tracked Online entry into Offline but
`registry.update` never writes `offlineTime`, so it keeps its stale
value (7) instead of being stamped with the transition time (5000). -/
theorem c2_counterexample :
    (Service.Registry.update
        { name := "a", domain := 0, state := Service.State.Online,
          ready := true, onlineTime := 0, offlineTime := 7, updateTime := 0,
          interval := 5000, threshold := 3, purgeDelay := 3 }
        { name := "a", domain := 0, state := Service.State.Offline,
          ready := false, checkInterval := 0, allowFailures := 0,
          time := 0 } 5000).state = Service.State.Offline ∧
    (Service.Registry.update
        { name := "a", domain := 0, state := Service.State.Online,
          ready := true, onlineTime := 0, offlineTime := 7, updateTime := 0,
          interval := 5000, threshold := 3, purgeDelay := 3 }
        { name := "a", domain := 0, state := Service.State.Offline,
          ready := false, checkInterval := 0, allowFailures := 0,
          time := 0 } 5000).offlineTime = 7 ∧
    (7 : Nat) ≠ 5000 := by
  refine ⟨rfl, rfl, by decide⟩

/-- Claim C2 (amended): `offlineTime` is stamped only by the sweep forcing
an entry offline (`registry.offline` sets it to the transition time); an
explicit report — including one carrying `state = Offline` — leaves
`offlineTime` unchanged, and the sweep leaves surviving Offline entries
untouched. -/
theorem c2_offlineTime_behaviour (reg : Service.Registry)
    (st : Service.Status) (now : Nat) :
    (Service.Registry.update reg st now).offlineTime = reg.offlineTime ∧
    (Service.Registry.offline reg now).offlineTime = now ∧
    (reg.state = Service.State.Offline → reg.dead now = false →
       Service.RegistryManager.checkTimeoutEntry now reg = (some reg, [])) := by
  refine ⟨rfl, rfl, ?_⟩
  intro h1 h2
  simp [Service.RegistryManager.checkTimeoutEntry, h1, h2]

/-- Witness for C2 (amended) at a concrete Offline entry that is not yet
dead and a concrete Offline report. -/
theorem c2_offlineTime_behaviour_witness :
    (Service.Registry.update
        { name := "a", domain := 0, state := Service.State.Offline,
          ready := false, onlineTime := 0, offlineTime := 7, updateTime := 0,
          interval := 5000, threshold := 3, purgeDelay := 3 }
        { name := "a", domain := 0, state := Service.State.Offline,
          ready := false, checkInterval := 0, allowFailures := 0,
          time := 0 } 5000).offlineTime =
      ({ name := "a", domain := 0, state := Service.State.Offline,
         ready := false, onlineTime := 0, offlineTime := 7, updateTime := 0,
         interval := 5000, threshold := 3,
         purgeDelay := 3 } : Service.Registry).offlineTime ∧
    (Service.Registry.offline
        { name := "a", domain := 0, state := Service.State.Offline,
          ready := false, onlineTime := 0, offlineTime := 7, updateTime := 0,
          interval := 5000, threshold := 3, purgeDelay := 3 }
        5000).offlineTime = 5000 ∧
    (({ name := "a", domain := 0, state := Service.State.Offline,
        ready := false, onlineTime := 0, offlineTime := 7, updateTime := 0,
        interval := 5000, threshold := 3,
        purgeDelay := 3 } : Service.Registry).state = Service.State.Offline →
      ({ name := "a", domain := 0, state := Service.State.Offline,
         ready := false, onlineTime := 0, offlineTime := 7, updateTime := 0,
         interval := 5000, threshold := 3,
         purgeDelay := 3 } : Service.Registry).dead 5000 = false →
      Service.RegistryManager.checkTimeoutEntry 5000
          { name := "a", domain := 0, state := Service.State.Offline,
            ready := false, onlineTime := 0, offlineTime := 7,
            updateTime := 0, interval := 5000, threshold := 3,
            purgeDelay := 3 } =
        (some { name := "a", domain := 0, state := Service.State.Offline,
                ready := false, onlineTime := 0, offlineTime := 7,
                updateTime := 0, interval := 5000, threshold := 3,
                purgeDelay := 3 }, [])) :=
  c2_offlineTime_behaviour
    { name := "a", domain := 0, state := Service.State.Offline,
      ready := false, onlineTime := 0, offlineTime := 7, updateTime := 0,
      interval := 5000, threshold := 3, purgeDelay := 3 }
    { name := "a", domain := 0, state := Service.State.Offline,
      ready := false, checkInterval := 0, allowFailures := 0, time := 0 }
    5000

/-- Claim C3: for a tracked entry whose state is not Offline (with the
in-range side conditions under which the `uint64` arithmetic does not
wrap), the sweep forces it into Offline — `state = Offline`,
`ready = false`, `updateTime` and `offlineTime` stamped — and emits
exactly one notification comparing the pre-transition snapshot against
the new status, if and only if the time elapsed since `updateTime`
exceeds `interval × threshold`; entries not exceeding that bound are
left unchanged. -/
theorem c3_sweep_forces_offline (now : Nat) (store : Service.Store)
    (name : String) (reg : Service.Registry)
    (hfind : assocFind store name = some reg)
    (hnd : (store.map Prod.fst).Nodup)
    (hoff : reg.state ≠ Service.State.Offline)
    (h1 : reg.updateTime ≤ now) (h2 : now < U64)
    (h3 : reg.interval * reg.threshold < U64) :
    (reg.interval * reg.threshold < now - reg.updateTime →
       Service.RegistryManager.checkTimeoutEntry now reg =
         (some (reg.offline now),
          [Service.Event.notify reg ((reg.offline now).toStatus)]) ∧
       assocFind (Service.RegistryManager.checkTimeout now store).1 name =
         some (reg.offline now) ∧
       (reg.offline now).state = Service.State.Offline ∧
       (reg.offline now).ready = false ∧
       (reg.offline now).updateTime = now ∧
       (reg.offline now).offlineTime = now) ∧
    (¬ reg.interval * reg.threshold < now - reg.updateTime →
       Service.RegistryManager.checkTimeoutEntry now reg = (some reg, []) ∧
       assocFind (Service.RegistryManager.checkTimeout now store).1 name =
         some reg) := by
  have hiff := Service.Registry.timeout_iff reg now h1 h2 h3
  have hstore := Service.checkTimeout_find_some now store name reg hnd hfind
  constructor
  · intro hlt
    have ht : reg.timeout now = true := hiff.mpr hlt
    have hE : Service.RegistryManager.checkTimeoutEntry now reg =
        (some (reg.offline now),
         [Service.Event.notify reg ((reg.offline now).toStatus)]) := by
      simp [Service.RegistryManager.checkTimeoutEntry, hoff, ht]
    exact ⟨hE, by rw [hstore, hE], rfl, rfl, rfl, rfl⟩
  · intro hge
    have ht : reg.timeout now = false := by
      cases htv : reg.timeout now
      · rfl
      · exact absurd (hiff.mp htv) hge
    have hE : Service.RegistryManager.checkTimeoutEntry now reg =
        (some reg, []) := by
      simp [Service.RegistryManager.checkTimeoutEntry, hoff, ht]
    exact ⟨hE, by rw [hstore, hE]⟩

/-- Witness for C3: an Online entry last updated at 100 with
`interval × threshold = 3000` is forced offline by a sweep at 10000. -/
theorem c3_sweep_forces_offline_witness :
    Service.RegistryManager.checkTimeoutEntry 10000
        { name := "a", domain := 0, state := Service.State.Online,
          ready := true, onlineTime := 100, offlineTime := 0,
          updateTime := 100, interval := 1000, threshold := 3,
          purgeDelay := 2 } =
      (some (Service.Registry.offline
        { name := "a", domain := 0, state := Service.State.Online,
          ready := true, onlineTime := 100, offlineTime := 0,
          updateTime := 100, interval := 1000, threshold := 3,
          purgeDelay := 2 } 10000),
       [Service.Event.notify
         { name := "a", domain := 0, state := Service.State.Online,
           ready := true, onlineTime := 100, offlineTime := 0,
           updateTime := 100, interval := 1000, threshold := 3,
           purgeDelay := 2 }
         (Service.Registry.toStatus (Service.Registry.offline
           { name := "a", domain := 0, state := Service.State.Online,
             ready := true, onlineTime := 100, offlineTime := 0,
             updateTime := 100, interval := 1000, threshold := 3,
             purgeDelay := 2 } 10000))]) ∧
    assocFind
        (Service.RegistryManager.checkTimeout 10000
          [("a", { name := "a", domain := 0, state := Service.State.Online,
                   ready := true, onlineTime := 100, offlineTime := 0,
                   updateTime := 100, interval := 1000, threshold := 3,
                   purgeDelay := 2 })]).1 "a" =
      some (Service.Registry.offline
        { name := "a", domain := 0, state := Service.State.Online,
          ready := true, onlineTime := 100, offlineTime := 0,
          updateTime := 100, interval := 1000, threshold := 3,
          purgeDelay := 2 } 10000) ∧
    (Service.Registry.offline
        { name := "a", domain := 0, state := Service.State.Online,
          ready := true, onlineTime := 100, offlineTime := 0,
          updateTime := 100, interval := 1000, threshold := 3,
          purgeDelay := 2 } 10000).state = Service.State.Offline ∧
    (Service.Registry.offline
        { name := "a", domain := 0, state := Service.State.Online,
          ready := true, onlineTime := 100, offlineTime := 0,
          updateTime := 100, interval := 1000, threshold := 3,
          purgeDelay := 2 } 10000).ready = false ∧
    (Service.Registry.offline
        { name := "a", domain := 0, state := Service.State.Online,
          ready := true, onlineTime := 100, offlineTime := 0,
          updateTime := 100, interval := 1000, threshold := 3,
          purgeDelay := 2 } 10000).updateTime = 10000 ∧
    (Service.Registry.offline
        { name := "a", domain := 0, state := Service.State.Online,
          ready := true, onlineTime := 100, offlineTime := 0,
          updateTime := 100, interval := 1000, threshold := 3,
          purgeDelay := 2 } 10000).offlineTime = 10000 :=
  (c3_sweep_forces_offline 10000
    [("a", { name := "a", domain := 0, state := Service.State.Online,
             ready := true, onlineTime := 100, offlineTime := 0,
             updateTime := 100, interval := 1000, threshold := 3,
             purgeDelay := 2 })] "a"
    { name := "a", domain := 0, state := Service.State.Online,
      ready := true, onlineTime := 100, offlineTime := 0, updateTime := 100,
      interval := 1000, threshold := 3, purgeDelay := 2 }
    rfl (by simp) (by decide) (by decide) (by decide) (by decide)).1
    (by decide)

/-- Claim C4: for a tracked Offline entry (with the in-range side
conditions under which the `uint64` arithmetic does not wrap), the sweep
removes it from the store if and only if the time elapsed since
`offlineTime` exceeds `interval × purgeDelay`, and otherwise leaves it
completely unmodified; after a purge, `queryStatus` for that name fails
with the not-found error. -/
theorem c4_sweep_purges_dead (now : Nat) (store : Service.Store)
    (name : String) (reg : Service.Registry)
    (hfind : assocFind store name = some reg)
    (hnd : (store.map Prod.fst).Nodup)
    (hoff : reg.state = Service.State.Offline)
    (h1 : reg.offlineTime ≤ now) (h2 : now < U64)
    (h3 : reg.interval * reg.purgeDelay < U64) :
    (reg.interval * reg.purgeDelay < now - reg.offlineTime →
       assocFind (Service.RegistryManager.checkTimeout now store).1 name =
         none ∧
       Service.RegistryManager.handleQueryStatus
           (Service.RegistryManager.checkTimeout now store).1 name =
         Except.error "service name does not exist") ∧
    (¬ reg.interval * reg.purgeDelay < now - reg.offlineTime →
       Service.RegistryManager.checkTimeoutEntry now reg = (some reg, []) ∧
       assocFind (Service.RegistryManager.checkTimeout now store).1 name =
         some reg) := by
  have hiff := Service.Registry.dead_iff reg now h1 h2 h3
  have hstore := Service.checkTimeout_find_some now store name reg hnd hfind
  constructor
  · intro hlt
    have hd : reg.dead now = true := hiff.mpr hlt
    have hE : Service.RegistryManager.checkTimeoutEntry now reg =
        (none, []) := by
      simp [Service.RegistryManager.checkTimeoutEntry, hoff, hd]
    have hnone :
        assocFind (Service.RegistryManager.checkTimeout now store).1 name =
          none := by rw [hstore, hE]
    exact ⟨hnone, by simp [Service.RegistryManager.handleQueryStatus, hnone]⟩
  · intro hge
    have hd : reg.dead now = false := by
      cases hdv : reg.dead now
      · rfl
      · exact absurd (hiff.mp hdv) hge
    have hE : Service.RegistryManager.checkTimeoutEntry now reg =
        (some reg, []) := by
      simp [Service.RegistryManager.checkTimeoutEntry, hoff, hd]
    exact ⟨hE, by rw [hstore, hE]⟩

/-- Witness for C4: an Offline entry with `offlineTime = 3100` and
`interval × purgeDelay = 2000` is purged by a sweep at 5200, and the
query then fails with the not-found error (the scenario of spec §8). -/
theorem c4_sweep_purges_dead_witness :
    assocFind
        (Service.RegistryManager.checkTimeout 5200
          [("alpha", { name := "alpha", domain := 0,
                       state := Service.State.Offline, ready := false,
                       onlineTime := 0, offlineTime := 3100,
                       updateTime := 3100, interval := 1000, threshold := 3,
                       purgeDelay := 2 })]).1 "alpha" = none ∧
    Service.RegistryManager.handleQueryStatus
        (Service.RegistryManager.checkTimeout 5200
          [("alpha", { name := "alpha", domain := 0,
                       state := Service.State.Offline, ready := false,
                       onlineTime := 0, offlineTime := 3100,
                       updateTime := 3100, interval := 1000, threshold := 3,
                       purgeDelay := 2 })]).1 "alpha" =
      Except.error "service name does not exist" :=
  (c4_sweep_purges_dead 5200
    [("alpha", { name := "alpha", domain := 0,
                 state := Service.State.Offline, ready := false,
                 onlineTime := 0, offlineTime := 3100, updateTime := 3100,
                 interval := 1000, threshold := 3, purgeDelay := 2 })]
    "alpha"
    { name := "alpha", domain := 0, state := Service.State.Offline,
      ready := false, onlineTime := 0, offlineTime := 3100,
      updateTime := 3100, interval := 1000, threshold := 3, purgeDelay := 2 }
    rfl (by simp) (by decide) (by decide) (by decide) (by decide)).1
    (by decide)

/-- Claim C5: a report carrying `state = Stopped` for a tracked service
removes the entry from the store within the same `handleStatus`
operation, and the event trace places the transition notification (when
the state/ready change emits one) strictly before the deletion. -/
theorem c5_stopped_removal (dInterval dThreshold dPurge now : Nat)
    (store : Service.Store) (st : Service.Status) (reg : Service.Registry)
    (hfind : assocFind store st.name = some reg)
    (hname : reg.name = st.name)
    (hstop : st.state = Service.State.Stopped) :
    assocFind
        (Service.RegistryManager.handleStatus dInterval dThreshold dPurge now
          store st).1 st.name = none ∧
    (Service.RegistryManager.handleStatus dInterval dThreshold dPurge now
        store st).2 =
      (if reg.state ≠ st.state ∨ reg.ready ≠ st.ready
       then [Service.Event.notify reg st] else []) ++
      [Service.Event.unregister reg.name] := by
  have hs : (Service.Registry.update reg st now).state =
      Service.State.Stopped := by
    simp [Service.Registry.update, hstop]
  constructor
  · simp only [Service.RegistryManager.handleStatus, hfind]
    unfold Service.RegistryManager.update
    rw [if_pos hs, hname]
    exact assocFind_del_self _ _
  · simp only [Service.RegistryManager.handleStatus, hfind]
    unfold Service.RegistryManager.update
    rw [if_pos hs]

/-- Witness for C5: a Stopped report for a tracked Online service first
emits the transition notification, then deletes the entry. -/
theorem c5_stopped_removal_witness :
    assocFind
        (Service.RegistryManager.handleStatus 5 3 3 100
          [("a", { name := "a", domain := 0, state := Service.State.Online,
                   ready := true, onlineTime := 0, offlineTime := 0,
                   updateTime := 0, interval := 5000, threshold := 3,
                   purgeDelay := 3 })]
          { name := "a", domain := 0, state := Service.State.Stopped,
            ready := false, checkInterval := 0, allowFailures := 0,
            time := 0 }).1
        ({ name := "a", domain := 0, state := Service.State.Stopped,
           ready := false, checkInterval := 0, allowFailures := 0,
           time := 0 } : Service.Status).name = none ∧
    (Service.RegistryManager.handleStatus 5 3 3 100
        [("a", { name := "a", domain := 0, state := Service.State.Online,
                 ready := true, onlineTime := 0, offlineTime := 0,
                 updateTime := 0, interval := 5000, threshold := 3,
                 purgeDelay := 3 })]
        { name := "a", domain := 0, state := Service.State.Stopped,
          ready := false, checkInterval := 0, allowFailures := 0,
          time := 0 }).2 =
      (if ({ name := "a", domain := 0, state := Service.State.Online,
             ready := true, onlineTime := 0, offlineTime := 0,
             updateTime := 0, interval := 5000, threshold := 3,
             purgeDelay := 3 } : Service.Registry).state ≠
            ({ name := "a", domain := 0, state := Service.State.Stopped,
               ready := false, checkInterval := 0, allowFailures := 0,
               time := 0 } : Service.Status).state ∨
          ({ name := "a", domain := 0, state := Service.State.Online,
             ready := true, onlineTime := 0, offlineTime := 0,
             updateTime := 0, interval := 5000, threshold := 3,
             purgeDelay := 3 } : Service.Registry).ready ≠
            ({ name := "a", domain := 0, state := Service.State.Stopped,
               ready := false, checkInterval := 0, allowFailures := 0,
               time := 0 } : Service.Status).ready
       then [Service.Event.notify
               { name := "a", domain := 0, state := Service.State.Online,
                 ready := true, onlineTime := 0, offlineTime := 0,
                 updateTime := 0, interval := 5000, threshold := 3,
                 purgeDelay := 3 }
               { name := "a", domain := 0, state := Service.State.Stopped,
                 ready := false, checkInterval := 0, allowFailures := 0,
                 time := 0 }]
       else []) ++
      [Service.Event.unregister "a"] :=
  c5_stopped_removal 5 3 3 100
    [("a", { name := "a", domain := 0, state := Service.State.Online,
             ready := true, onlineTime := 0, offlineTime := 0,
             updateTime := 0, interval := 5000, threshold := 3,
             purgeDelay := 3 })]
    { name := "a", domain := 0, state := Service.State.Stopped,
      ready := false, checkInterval := 0, allowFailures := 0, time := 0 }
    { name := "a", domain := 0, state := Service.State.Online,
      ready := true, onlineTime := 0, offlineTime := 0, updateTime := 0,
      interval := 5000, threshold := 3, purgeDelay := 3 }
    rfl rfl rfl

/-- Claim C6: on a tick, the current state's internal tick counter is
incremented (in the machine's state map), the bound action fires exactly
when the state's tick-threshold is 0 or the incremented counter is a
multiple of the threshold, and the one-shot stop-acknowledged signal is
raised exactly when the action fired and the triggered state is the
designated stopping state. The hypothesis `hw` is the no-wrap side
condition of the Go `uint` increment `s.tickCnt++` (below 2^64 − 1 the
wrapped and the unwrapped counter coincide). -/
theorem c6_tick_trigger (sm : Meta.StateMachine) (cur : String)
    (s : Meta.State)
    (hc : sm.current = some cur)
    (hs : assocFind sm.states cur = some s)
    (hn : s.Name = cur)
    (ha : s.hasAction = true)
    (hcl : sm.stoppedClosed = false)
    (hw : s.tickCnt + 1 < U64) :
    ∃ (sm' : Meta.StateMachine) (fired : Bool),
      sm.trigger = Except.ok (sm', fired) ∧
      assocFind sm'.states cur = some { s with tickCnt := s.tickCnt + 1 } ∧
      (fired = true ↔ (s.Ticks = 0 ∨ (s.tickCnt + 1) % s.Ticks = 0)) ∧
      (sm'.stoppedClosed = true ↔
        (fired = true ∧ sm.stopping ≠ "" ∧ s.Name = sm.stopping)) := by
  subst hn
  have hmod : (s.tickCnt + 1) % U64 = s.tickCnt + 1 := Nat.mod_eq_of_lt hw
  have hg : sm.GetState = Except.ok s.Name := by
    simp [Meta.StateMachine.GetState, hc]
  have htr : sm.trigger = Meta.State.trigger sm s := by
    simp [Meta.StateMachine.trigger, hg, hs, Bind.bind, Except.bind]
  by_cases hfire : s.Ticks = 0 ∨ (s.tickCnt + 1) % s.Ticks = 0
  · by_cases hstop : sm.stopping ≠ "" ∧ s.Name = sm.stopping
    · refine ⟨{ sm with
          states := assocSet sm.states s.Name { s with tickCnt := s.tickCnt + 1 },
          stoppedClosed := true }, true, ?_, ?_, ?_, ?_⟩
      · rw [htr]
        simp [Meta.State.trigger, hmod, hfire, ha, hstop, hcl]
      · exact assocFind_set_self sm.states s.Name _
      · simp [hfire]
      · simp [hstop.1, hstop.2]
    · refine ⟨{ sm with
          states := assocSet sm.states s.Name { s with tickCnt := s.tickCnt + 1 } },
          true, ?_, ?_, ?_, ?_⟩
      · rw [htr]
        simp [Meta.State.trigger, hmod, hfire, ha, hstop]
      · exact assocFind_set_self sm.states s.Name _
      · simp [hfire]
      · simp [hcl, hstop]
  · refine ⟨{ sm with
        states := assocSet sm.states s.Name { s with tickCnt := s.tickCnt + 1 } },
        false, ?_, ?_, ?_, ?_⟩
    · rw [htr]
      simp [Meta.State.trigger, hmod, hfire]
    · exact assocFind_set_self sm.states s.Name _
    · simp [hfire]
    · simp [hcl]

/-- Witness for C6: in state "S" with `Ticks = 2` and `tickCnt = 1`, with
"S" the designated stopping state, the tick fires the action (2 is a
multiple of 2) and raises the stop-acknowledged signal. -/
theorem c6_tick_trigger_witness :
    ∃ (sm' : Meta.StateMachine) (fired : Bool),
      Meta.StateMachine.trigger
          { name := "m",
            states := [("S", { Name := "S", Ticks := 2, hasAction := true,
                               tickCnt := 1 })],
            starting := "S", stopping := "S", saved := "",
            current := some "S", stoppedClosed := false } =
        Except.ok (sm', fired) ∧
      assocFind sm'.states "S" =
        some { ({ Name := "S", Ticks := 2, hasAction := true,
                  tickCnt := 1 } : Meta.State) with
               tickCnt := ({ Name := "S", Ticks := 2, hasAction := true,
                             tickCnt := 1 } : Meta.State).tickCnt + 1 } ∧
      (fired = true ↔
        (({ Name := "S", Ticks := 2, hasAction := true,
            tickCnt := 1 } : Meta.State).Ticks = 0 ∨
         (({ Name := "S", Ticks := 2, hasAction := true,
             tickCnt := 1 } : Meta.State).tickCnt + 1) %
             ({ Name := "S", Ticks := 2, hasAction := true,
                tickCnt := 1 } : Meta.State).Ticks = 0)) ∧
      (sm'.stoppedClosed = true ↔
        (fired = true ∧
         ({ name := "m",
            states := [("S", { Name := "S", Ticks := 2, hasAction := true,
                               tickCnt := 1 })],
            starting := "S", stopping := "S", saved := "",
            current := some "S",
            stoppedClosed := false } : Meta.StateMachine).stopping ≠ "" ∧
         ({ Name := "S", Ticks := 2, hasAction := true,
            tickCnt := 1 } : Meta.State).Name =
           ({ name := "m",
              states := [("S", { Name := "S", Ticks := 2, hasAction := true,
                                 tickCnt := 1 })],
              starting := "S", stopping := "S", saved := "",
              current := some "S",
              stoppedClosed := false } : Meta.StateMachine).stopping)) :=
  c6_tick_trigger
    { name := "m",
      states := [("S", { Name := "S", Ticks := 2, hasAction := true,
                         tickCnt := 1 })],
      starting := "S", stopping := "S", saved := "",
      current := some "S", stoppedClosed := false }
    "S"
    { Name := "S", Ticks := 2, hasAction := true, tickCnt := 1 }
    rfl rfl rfl rfl rfl (by decide)

/-- Claim C7 is contradicted by the code: two data-driven executions
panic. First, `Startup` on a freshly built machine (one registered state,
starting state set, `current` never stored) calls `GetState`, whose
`current.Load().(string)` type assertion panics on the nil interface.
Second, two consecutive ticks while the current state is the designated
stopping state close the already-closed `stopped` channel, which panics.
This theorem evaluates the embedded code at both failing inputs. -/
theorem c7_panic_eval :
    Meta.StateMachine.Startup
        ((Meta.StateMachine.SetStartingState
          ((Meta.NewStateMachine "m").RegisterState
            { Name := "A", Ticks := 0, hasAction := true, tickCnt := 0 }).1
          "A").1) =
      Except.error Meta.Panic.nilInterfaceConversion ∧
    Except.bind
        (Meta.StateMachine.trigger
          { name := "m",
            states := [("B", { Name := "B", Ticks := 0, hasAction := true,
                               tickCnt := 0 })],
            starting := "A", stopping := "B", saved := "",
            current := some "B", stoppedClosed := false })
        (fun p => Meta.StateMachine.trigger p.1) =
      Except.error Meta.Panic.closeOfClosedChannel := by
  constructor <;> rfl
